import Mathlib

/-!
Shallow embedding of the obsidian-audio-plugin sources (src/main.ts and its
later revision src/unnamed/part_000; the two differ only in the recorder's
guard branches, the try/catch around device access, and `saveAudio` taking a
filename — where they differ, `src/unnamed/part_000` is the revision the
design document describes and is the one embedded here).

Host objects the plugin calls into (Blob, MediaStream, MediaRecorder, the
vault adapter) are modelled as explicit data: a Blob is a byte list plus a
mime-type string, a MediaStream is an id with a list of tracks each carrying
a stopped flag, and the set of streams handed out by `getUserMedia` lives in
a `MediaWorld` so that a stream stays observable (live or stopped) even after
the recorder drops its reference to it.
-/

/-- A binary object: `new Blob(parts, { type })` — the bytes and the mime tag. -/
structure Blob where
  data : List Nat
  type : String
deriving DecidableEq, Repr

/-- Byte length of a blob (`blob.size`). -/
def Blob.size (b : Blob) : Nat := b.data.length

/-- The object built by `new Blob([])`: no bytes, default (empty) type. -/
def emptyBlob : Blob := ⟨[], ""⟩

/-- The object built by `new Blob(chunks, { type: ty })`: the chunks'
bytes concatenated in order, tagged with `ty`. -/
def concatBlobs (chunks : List Blob) (ty : String) : Blob :=
  ⟨(chunks.map Blob.data).flatten, ty⟩

/-- One track of a media stream; `stopped` is set by `track.stop()`. -/
structure MediaTrack where
  id : Nat
  stopped : Bool
deriving DecidableEq, Repr

/-- A device capture stream handed out by `getUserMedia`. -/
structure MediaStream where
  id : Nat
  tracks : List MediaTrack
deriving DecidableEq, Repr

/-- A stream is fully stopped when every one of its tracks is stopped. -/
def MediaStream.allStopped (s : MediaStream) : Bool :=
  s.tracks.all (fun t => t.stopped)

/-- The host's pool of capture streams: every stream `getUserMedia` ever
produced, plus a counter for fresh stream ids. -/
structure MediaWorld where
  streams : List MediaStream
  nextId : Nat
deriving DecidableEq, Repr

/-- The streams whose tracks are not all stopped — the live device captures. -/
def MediaWorld.liveStreams (w : MediaWorld) : List MediaStream :=
  w.streams.filter (fun s => !s.allStopped)

/-- A granted `getUserMedia({ audio: true })` call: mints a fresh stream with
`ntracks` live tracks and records it in the world. -/
def MediaWorld.getUserMedia (w : MediaWorld) (ntracks : Nat) :
    MediaStream × MediaWorld :=
  let s : MediaStream :=
    ⟨w.nextId, (List.range ntracks).map (fun i => ⟨i, false⟩)⟩
  (s, ⟨w.streams ++ [s], w.nextId + 1⟩)

/-- The effect of `stream.getTracks().forEach(track => track.stop())` on the
stream with id `sid`. -/
def MediaWorld.stopTracks (w : MediaWorld) (sid : Nat) : MediaWorld :=
  ⟨w.streams.map (fun s =>
      if s.id = sid then ⟨s.id, s.tracks.map (fun t => ⟨t.id, true⟩)⟩ else s),
    w.nextId⟩

/-- State of a host `MediaRecorder` object: `recording` after `start()`,
`inactive` once stopped (per the platform semantics, `stop()` on an
`inactive` recorder is a no-op and its `onstop` handler never fires). -/
inductive MRState where
  | inactive
  | recording
deriving DecidableEq, Repr

/-- A host `MediaRecorder`: the stream it captures, the mime type handed to
its constructor, and its recording state. -/
structure MediaRecorderM where
  streamId : Nat
  mimeType : String
  state : MRState
deriving DecidableEq, Repr

/-- The `AudioRecorder` wrapper class's fields: `mediaRecorder`,
`audioChunks`, `stream` (held by id; the stream object itself lives in the
`MediaWorld`). -/
structure AudioRecorder where
  mediaRecorder : Option MediaRecorderM
  audioChunks : List Blob
  stream : Option Nat
deriving DecidableEq, Repr

/-- A freshly constructed `AudioRecorder` (all fields at their initializers). -/
def AudioRecorder.init : AudioRecorder := ⟨none, [], none⟩

/-- The ordered mime-type preference list in `startRecording`. -/
def mimeTypes : List String :=
  ["audio/mp3", "audio/mpeg", "audio/webm;codecs=opus", "audio/webm"]

/-- The selection loop of `startRecording`: `selectedType` starts as the
empty string, and the loop breaks at the first `type` in `mimeTypes` with
`MediaRecorder.isTypeSupported(type)`. -/
def selectMimeType (isTypeSupported : String → Bool) : String :=
  go mimeTypes
where
  go : List String → String
    | [] => ""
    | t :: ts => if isTypeSupported t then t else go ts

/-- The host-determined inputs of one plugin run: whether (and how) the
device-access request resolves, which mime types the platform recorder
supports, how many tracks an audio capture stream carries, and the current
`Date.now()` value. -/
structure Env where
  userMedia : Except String Unit
  isTypeSupported : String → Bool
  newTrackCount : Nat
  now : Nat

/-- Result of `AudioRecorder.startRecording`: the updated wrapper, the
updated stream pool, the notices raised, and the returned value
(`some` stream id, or `none` for the `return null` failure path). -/
structure StartResult where
  recorder : AudioRecorder
  world : MediaWorld
  notices : List String
  returned : Option Nat
deriving Repr

/-- `AudioRecorder.startRecording`, from src/unnamed/part_000: request the
device stream (the `catch` branch reports a notice and returns null), select
the mime type, construct the recorder, clear the chunk buffer, install
`ondataavailable`, start, notify, and return the stream. -/
def AudioRecorder.startRecording (env : Env) (rc : AudioRecorder)
    (w : MediaWorld) : StartResult :=
  match env.userMedia with
  | .error e =>
    ⟨rc, w, ["Failed to start recording: " ++ e], none⟩
  | .ok _ =>
    let sw := w.getUserMedia env.newTrackCount
    let selectedType := selectMimeType env.isTypeSupported
    let rc1 : AudioRecorder :=
      { mediaRecorder := some ⟨sw.1.id, selectedType, .recording⟩
        audioChunks := []
        stream := some sw.1.id }
    ⟨rc1, sw.2, ["Recording started..."], some sw.1.id⟩

/-- The `ondataavailable` handler: pushes the event's data onto
`audioChunks`. -/
def AudioRecorder.dataAvailable (rc : AudioRecorder) (b : Blob) :
    AudioRecorder :=
  { rc with audioChunks := rc.audioChunks ++ [b] }

/-- How the promise returned by `stopRecording` behaves: resolved through
the `!this.mediaRecorder` guard, resolved by the `onstop` handler, or left
pending forever (the recorder exists but is inactive, so the platform never
fires `onstop`). -/
inductive StopOutcome where
  | noRecorder (b : Blob)
  | stopped (b : Blob)
  | pending
deriving DecidableEq, Repr

/-- The blob the promise resolves with, if it resolves at all. -/
def StopOutcome.resolvedBlob : StopOutcome → Option Blob
  | .noRecorder b => some b
  | .stopped b => some b
  | .pending => none

/-- Result of `AudioRecorder.stopRecording`. -/
structure StopResult where
  recorder : AudioRecorder
  world : MediaWorld
  notices : List String
  outcome : StopOutcome
deriving Repr

/-- `AudioRecorder.stopRecording`, from src/unnamed/part_000: with no
`mediaRecorder` the promise resolves `new Blob([])`; otherwise
`mediaRecorder.stop()` is called and (when the recorder was recording) the
`onstop` handler concatenates the chunks into an `audio/mp3` blob, clears
the buffer, stops the stream's tracks and nulls the stream, and resolves. -/
def AudioRecorder.stopRecording (rc : AudioRecorder) (w : MediaWorld) :
    StopResult :=
  match rc.mediaRecorder with
  | none => ⟨rc, w, [], .noRecorder emptyBlob⟩
  | some mr =>
    match mr.state with
    | .recording =>
      let audioBlob := concatBlobs rc.audioChunks "audio/mp3"
      let w' := match rc.stream with
        | some sid => w.stopTracks sid
        | none => w
      ⟨⟨some ⟨mr.streamId, mr.mimeType, .inactive⟩, [], none⟩, w',
        ["Recording stopped!"], .stopped audioBlob⟩
    | .inactive =>
      ⟨rc, w, ["Recording stopped!"], .pending⟩

/-- A file in the vault: its full path and its bytes. -/
structure VFile where
  path : String
  content : List Nat
deriving DecidableEq, Repr

/-- The host vault, as far as the plugin touches it: the folders that exist
and the binary files stored. -/
structure Vault where
  folders : List String
  files : List VFile
deriving DecidableEq, Repr

/-- The adapter's `exists(path)`: a folder or a file with that path. -/
def Vault.existsPath (v : Vault) (p : String) : Bool :=
  v.folders.contains p || v.files.any (fun f => f.path = p)

/-- The host's `vault.createFolder(path)`. -/
def Vault.createFolder (v : Vault) (p : String) : Vault :=
  { v with folders := v.folders ++ [p] }

/-- The host's `vault.createBinary(path, bytes)`, modelled as the write of
`bytes` at `path`: a path names at most one file, so the write replaces any
previous entry at that path and appends the new one. -/
def Vault.createBinary (v : Vault) (p : String) (bytes : List Nat) : Vault :=
  { v with files := v.files.filter (fun f => !(f.path = p)) ++ [⟨p, bytes⟩] }

/-- The host's `vault.rename(file, newPath)`: moves the file at `oldPath` to
`newPath`, failing when no such file exists. -/
def Vault.rename (v : Vault) (oldPath newPath : String) :
    Except String Vault :=
  if v.files.any (fun f => f.path = oldPath) then
    .ok { v with
      files := v.files.map fun f =>
        if f.path = oldPath then ⟨newPath, f.content⟩ else f }
  else
    .error "file not found"

/-- Result of `MyPlugin.saveAudio`. -/
structure SaveResult where
  vault : Vault
  notices : List String
deriving DecidableEq, Repr

/-- `MyPlugin.saveAudio(blob, filename)`, from src/unnamed/part_000: create
the fixed `Audio` folder when the adapter says it does not exist, write the
blob's bytes to `Audio/<filename>`, and raise the `Saved:` notice. -/
def saveAudio (v : Vault) (blob : Blob) (filename : String) : SaveResult :=
  let audioDir := "Audio"
  let v1 := if v.existsPath audioDir then v else v.createFolder audioDir
  let v2 := v1.createBinary (audioDir ++ "/" ++ filename) blob.data
  ⟨v2, ["Saved: " ++ filename]⟩

/-- Result of the rename callback inside `AudioPlaybackModal.onOpen`. -/
structure RenameCbResult where
  vault : Vault
  notices : List String
  renamed : Bool
deriving DecidableEq, Repr

/-- The callback `AudioPlaybackModal.onOpen` hands to `RenameModal`: skip
silently unless `newName` is truthy and differs from `file.name`; then check
`Audio/<newName>` with the adapter and refuse with an error notice when it
exists; otherwise rename and notify (an error from the host rename is
caught and reported). -/
def renameCallback (v : Vault) (filePath fileName newName : String) :
    RenameCbResult :=
  if newName ≠ "" ∧ newName ≠ fileName then
    let newPath := "Audio/" ++ newName
    if v.existsPath newPath then
      ⟨v, ["Error: A file named \"" ++ newName ++ "\" already exists"], false⟩
    else
      match v.rename filePath newPath with
      | .ok v2 => ⟨v2, ["Renamed to: " ++ newName], true⟩
      | .error e => ⟨v, ["Error renaming file: " ++ e], false⟩
  else
    ⟨v, [], false⟩

/-- `RenameModal.onOpen` pre-fills the input field with
`this.file.name + ".mp3"`. -/
def renamePrefill (fileName : String) : String := fileName ++ ".mp3"

/-- The JS `String.prototype.trim()` host primitive: drop whitespace from
both ends of the string (stated over the character list so that it is
kernel-computable). -/
def jsTrim (s : String) : String :=
  ⟨((s.data.dropWhile Char.isWhitespace).reverse.dropWhile
      Char.isWhitespace).reverse⟩

/-- The rename button's click handler: `this.inputEl.value.trim()`; when the
trimmed name is truthy, hand `newName + ".mp3"` to the rename callback
(`some`), otherwise do nothing (`none`). -/
def renameSubmit (input : String) : Option String :=
  let newName := jsTrim input
  if newName ≠ "" then some (newName ++ ".mp3") else none

/-- The `MyPlugin` fields the ribbon toggle reads and writes (after
`onload` has installed the recorder), together with the vault it saves
into. -/
structure PluginState where
  recorder : AudioRecorder
  isRecording : Bool
  vault : Vault
deriving Repr

/-- Result of one click on the microphone ribbon icon. -/
structure ClickResult where
  plugin : PluginState
  world : MediaWorld
  notices : List String
deriving Repr

/-- One click of the ribbon toggle, from `MyPlugin.onload` in
src/unnamed/part_000: flip `isRecording`; when now recording, start the
recorder; otherwise await `stopRecording` and — since a resolved Blob
object is truthy in JS even when empty — save it under the timestamp
default name (when the promise never resolves, nothing further runs). -/
def ribbonClick (env : Env) (ps : PluginState) (w : MediaWorld) :
    ClickResult :=
  let nowRecording := !ps.isRecording
  if nowRecording then
    let sr := AudioRecorder.startRecording env ps.recorder w
    ⟨⟨sr.recorder, true, ps.vault⟩, sr.world, sr.notices⟩
  else
    let sr := AudioRecorder.stopRecording ps.recorder w
    match sr.outcome.resolvedBlob with
    | some b =>
      let defaultName := "Recording-" ++ toString env.now ++ ".mp3"
      let save := saveAudio ps.vault b defaultName
      ⟨⟨sr.recorder, false, save.vault⟩, sr.world, sr.notices ++ save.notices⟩
    | none =>
      ⟨⟨sr.recorder, false, ps.vault⟩, sr.world, sr.notices⟩

/-! Helper lemmas shared by the claim theorems. -/

/-- Filtering for `q` after keeping only the elements violating `q` leaves
nothing. -/
theorem filter_after_filter_not {α : Type} (q : α → Bool) (l : List α) :
    (l.filter (fun a => !(q a))).filter q = [] := by
  induction l with
  | nil => rfl
  | cons a as ih => cases h : q a <;> simp [List.filter_cons, h, ih]

/-- The folder path `"Audio"` is never the path of a saved file
`"Audio/" ++ fn`. -/
theorem audio_ne_audio_slash (fn : String) :
    ("Audio" : String) ≠ "Audio/" ++ fn := by
  intro h
  have h2 := congrArg String.length h
  rw [String.length_append] at h2
  have e1 : ("Audio" : String).length = 5 := rfl
  have e2 : ("Audio/" : String).length = 6 := rfl
  omega

/-- A string with the `".mp3"` suffix appended is never empty. -/
theorem append_mp3_ne_empty (s : String) : s ++ ".mp3" ≠ "" := by
  intro h
  have h2 := congrArg String.length h
  rw [String.length_append] at h2
  have e1 : (".mp3" : String).length = 4 := rfl
  have e2 : ("" : String).length = 0 := rfl
  omega

/-- The loop of `selectMimeType` returns the first list element the
predicate accepts, or the initial empty string when there is none. -/
theorem selectMimeType_go_eq_find (sup : String → Bool) (l : List String) :
    selectMimeType.go sup l = (l.find? sup).getD "" := by
  induction l with
  | nil => rfl
  | cons t ts ih => cases h : sup t <;> simp [selectMimeType.go, List.find?_cons, h, ih]

/-- C1: on a wrapper on which `start()` was never invoked (its
`mediaRecorder` field still holds its initializer `null`, as in a freshly
constructed wrapper), `stopRecording` resolves — it neither raises nor
leaves the promise pending — with the zero-length blob `new Blob([])`, and
touches neither the wrapper nor the stream pool. -/
theorem stopRecording_never_started (rc : AudioRecorder) (w : MediaWorld)
    (h : rc.mediaRecorder = none) :
    (rc.stopRecording w).outcome.resolvedBlob = some emptyBlob
    ∧ emptyBlob.size = 0
    ∧ (rc.stopRecording w).recorder = rc
    ∧ (rc.stopRecording w).world = w
    ∧ AudioRecorder.init.mediaRecorder = none := by
  unfold AudioRecorder.stopRecording
  rw [h]
  exact ⟨rfl, rfl, rfl, rfl, rfl⟩

/-- Witness for C1 at a freshly constructed wrapper and an empty stream
pool. -/
theorem stopRecording_never_started_w :
    (AudioRecorder.init.stopRecording ⟨[], 0⟩).outcome.resolvedBlob =
        some emptyBlob
    ∧ emptyBlob.size = 0
    ∧ (AudioRecorder.init.stopRecording ⟨[], 0⟩).recorder = AudioRecorder.init
    ∧ (AudioRecorder.init.stopRecording ⟨[], 0⟩).world = ⟨[], 0⟩
    ∧ AudioRecorder.init.mediaRecorder = none :=
  stopRecording_never_started AudioRecorder.init ⟨[], 0⟩ rfl

/-- C2: the encoding selection of `startRecording` returns the first
supported entry of the preference list `["audio/mp3", "audio/mpeg",
"audio/webm;codecs=opus", "audio/webm"]` (the first match of `find?` on
that list, in that order); when none of the four is supported it does not
fail but returns the empty string, and on any granted start the constructed
recorder carries exactly the selected type. -/
theorem selectMimeType_spec :
    (∀ sup : String → Bool, selectMimeType sup = (mimeTypes.find? sup).getD "")
    ∧ mimeTypes = ["audio/mp3", "audio/mpeg", "audio/webm;codecs=opus", "audio/webm"]
    ∧ (∀ sup : String → Bool,
        (∀ t ∈ mimeTypes, sup t = false) → selectMimeType sup = "")
    ∧ (∀ env rc w, env.userMedia = Except.ok () →
        ∃ mr, (AudioRecorder.startRecording env rc w).recorder.mediaRecorder = some mr
          ∧ mr.mimeType = selectMimeType env.isTypeSupported) := by
  refine ⟨fun sup => selectMimeType_go_eq_find sup mimeTypes, rfl, ?_, ?_⟩
  · intro sup hall
    rw [selectMimeType, selectMimeType_go_eq_find, List.find?_eq_none.mpr]
    · rfl
    · intro t ht
      simp [hall t ht]
  · intro env rc w h
    unfold AudioRecorder.startRecording
    rw [h]
    exact ⟨_, rfl, rfl⟩

/-- Witness for C2: a platform supporting only `audio/webm` selects it (the
third and second preferences being unsupported are skipped), and a platform
supporting nothing yields the empty selection. -/
theorem selectMimeType_spec_w :
    selectMimeType (fun t => t == "audio/webm") = "audio/webm"
    ∧ selectMimeType (fun _ => false) = "" := by
  constructor
  · have h := selectMimeType_spec.1 (fun t => t == "audio/webm")
    rw [h]
    decide
  · exact selectMimeType_spec.2.2.1 (fun _ => false) (fun t _ => rfl)

/-- A file kept by `createBinary` at a different path survives the write:
the adapter still reports `q` as existing when `q ≠ p`. -/
theorem existsPath_createBinary (v : Vault) (p q : String) (bytes : List Nat)
    (hne : q ≠ p) (h : v.existsPath q = true) :
    (v.createBinary p bytes).existsPath q = true := by
  simp only [Vault.existsPath, Vault.createBinary, List.any_append,
    Bool.or_eq_true, List.any_eq_true, List.mem_filter,
    decide_eq_true_eq] at h ⊢
  rcases h with h | ⟨f, hf, hfp⟩
  · exact Or.inl h
  · refine Or.inr (Or.inl ⟨f, ⟨hf, ?_⟩, hfp⟩)
    simp only [Bool.not_eq_true', decide_eq_false_iff_not]
    rw [hfp]
    exact hne

/-- C3 counterexample: when the submitted name equals the file's current
name, the destination path `Audio/<newName>` does exist in the vault (it is
the file itself), yet the callback surfaces no failure notice at all — the
`newName !== file.name` guard skips the whole body silently, so the claim's
"a failure notice is surfaced" fails at this input (the vault is still left
unchanged). -/
theorem renameCallback_self_name_no_notice :
    Vault.existsPath ⟨["Audio"], [⟨"Audio/Recording-0.mp3", [1, 2, 3]⟩]⟩
        ("Audio/" ++ "Recording-0.mp3") = true
    ∧ (renameCallback ⟨["Audio"], [⟨"Audio/Recording-0.mp3", [1, 2, 3]⟩]⟩
        "Audio/Recording-0.mp3" "Recording-0.mp3" "Recording-0.mp3").notices = []
    ∧ (renameCallback ⟨["Audio"], [⟨"Audio/Recording-0.mp3", [1, 2, 3]⟩]⟩
        "Audio/Recording-0.mp3" "Recording-0.mp3" "Recording-0.mp3").vault =
      ⟨["Audio"], [⟨"Audio/Recording-0.mp3", [1, 2, 3]⟩]⟩ := by
  decide

/-- C3 (amended): for every rename request whose submitted name is truthy
and differs from the file's current name, a collision with an existing
`Audio/<newName>` is detected before any mutation: the error notice is
surfaced, the rename is not performed, and the vault — the original file's
name and content and the existing destination file included — is returned
unchanged. -/
theorem renameCallback_collision (v : Vault)
    (filePath fileName newName : String)
    (h0 : newName ≠ "") (h1 : newName ≠ fileName)
    (h2 : v.existsPath ("Audio/" ++ newName) = true) :
    renameCallback v filePath fileName newName =
      ⟨v, ["Error: A file named \"" ++ newName ++ "\" already exists"], false⟩ := by
  unfold renameCallback
  rw [if_pos ⟨h0, h1⟩]
  simp only [h2, if_true]

/-- Witness for C3's amended theorem: renaming `B.mp3` to the name of the
existing `A.mp3` reports the collision and changes nothing. -/
theorem renameCallback_collision_w :
    renameCallback ⟨["Audio"], [⟨"Audio/A.mp3", [7]⟩, ⟨"Audio/B.mp3", [9]⟩]⟩
        "Audio/B.mp3" "B.mp3" "A.mp3" =
      ⟨⟨["Audio"], [⟨"Audio/A.mp3", [7]⟩, ⟨"Audio/B.mp3", [9]⟩]⟩,
        ["Error: A file named \"A.mp3\" already exists"], false⟩ :=
  renameCallback_collision _ "Audio/B.mp3" "B.mp3" "A.mp3"
    (by decide) (by decide) (by decide)

/-- C4: `saveAudio` leaves the fixed `Audio` folder existing (creating it —
it ends up among the vault's folders — whenever the adapter said it did not
exist), writes the blob's bytes to `Audio/<filename>` so that afterwards the
vault holds exactly one entry at that path, whose byte length is the input
blob's size, and surfaces the `Saved:` success notice. -/
theorem saveAudio_spec (v : Vault) (b : Blob) (filename : String) :
    (saveAudio v b filename).vault.existsPath "Audio" = true
    ∧ (saveAudio v b filename).vault.files.filter
        (fun f => f.path = "Audio/" ++ filename) =
      [⟨"Audio/" ++ filename, b.data⟩]
    ∧ (VFile.mk ("Audio/" ++ filename) b.data).content.length = b.size
    ∧ (saveAudio v b filename).notices = ["Saved: " ++ filename]
    ∧ (v.existsPath "Audio" = false →
        "Audio" ∈ (saveAudio v b filename).vault.folders) := by
  have hpath : ("Audio" ++ "/" ++ filename : String) = "Audio/" ++ filename := rfl
  have hne : ("Audio" : String) ≠ "Audio" ++ "/" ++ filename :=
    hpath ▸ audio_ne_audio_slash filename
  refine ⟨?_, ?_, rfl, rfl, ?_⟩
  · -- the folder check: `Audio` exists after the save
    by_cases hc : v.existsPath "Audio" = true
    · simp only [saveAudio, hc, if_true]
      exact existsPath_createBinary _ _ _ _ hne hc
    · simp only [saveAudio, hc, if_false, Bool.false_eq_true]
      refine existsPath_createBinary _ _ _ _ hne ?_
      simp [Vault.existsPath, Vault.createFolder]
  · -- exactly one entry at the written path
    by_cases hc : v.existsPath "Audio" = true <;>
      simp only [saveAudio, hc, if_true, if_false, Bool.false_eq_true] <;>
      simp [Vault.createBinary, List.filter_append, hpath,
        filter_after_filter_not]
  · intro hno
    simp only [saveAudio, hno, if_false, Bool.false_eq_true]
    simp [Vault.createBinary, Vault.createFolder]

/-- Witness for C4: saving a 1-byte blob as `Recording-0.mp3` into an empty
vault creates the folder and yields exactly that one entry. -/
theorem saveAudio_spec_w :
    (saveAudio ⟨[], []⟩ ⟨[42], "audio/mp3"⟩ "Recording-0.mp3").vault.files.filter
        (fun f => f.path = "Audio/" ++ "Recording-0.mp3") =
      [⟨"Audio/" ++ "Recording-0.mp3", [42]⟩]
    ∧ "Audio" ∈ (saveAudio ⟨[], []⟩ ⟨[42], "audio/mp3"⟩
        "Recording-0.mp3").vault.folders := by
  have h := saveAudio_spec ⟨[], []⟩ ⟨[42], "audio/mp3"⟩ "Recording-0.mp3"
  exact ⟨h.2.1, h.2.2.2.2 (by decide)⟩

/-- C5: when the device-access request rejects, `startRecording` catches the
error inside itself: the failure notice is the only effect — the wrapper's
fields are unchanged (no capture session), the stream pool is unchanged (no
stream was created), and the function returns null instead of propagating
the exception. -/
theorem startRecording_denied (env : Env) (rc : AudioRecorder)
    (w : MediaWorld) (e : String) (h : env.userMedia = Except.error e) :
    AudioRecorder.startRecording env rc w =
      ⟨rc, w, ["Failed to start recording: " ++ e], none⟩ := by
  unfold AudioRecorder.startRecording
  rw [h]

/-- Witness for C5: a concrete denied request leaves a fresh wrapper and an
empty stream pool untouched and returns null with the failure notice. -/
theorem startRecording_denied_w :
    AudioRecorder.startRecording
        ⟨Except.error "Permission denied", fun _ => false, 1, 0⟩
        AudioRecorder.init ⟨[], 0⟩ =
      ⟨AudioRecorder.init, ⟨[], 0⟩,
        ["Failed to start recording: " ++ "Permission denied"], none⟩ :=
  startRecording_denied ⟨Except.error "Permission denied", fun _ => false, 1, 0⟩
    AudioRecorder.init ⟨[], 0⟩ "Permission denied" rfl

/-- C6: on an active capture session (a recorder in the `recording` state
with a held stream), `stopRecording` resolves through the `onstop` handler
with the buffered chunks concatenated, in buffer order, into one blob
tagged `audio/mp3`; the chunk buffer is cleared, every track of the held
device stream is stopped in the resulting world, and the stop notice is
raised. -/
theorem stopRecording_active (rc : AudioRecorder) (w : MediaWorld)
    (mr : MediaRecorderM) (sid : Nat)
    (h1 : rc.mediaRecorder = some mr) (h2 : mr.state = MRState.recording)
    (h3 : rc.stream = some sid) :
    (rc.stopRecording w).outcome =
        .stopped ⟨(rc.audioChunks.map Blob.data).flatten, "audio/mp3"⟩
    ∧ (rc.stopRecording w).recorder.audioChunks = []
    ∧ (rc.stopRecording w).world = w.stopTracks sid
    ∧ (∀ s ∈ (rc.stopRecording w).world.streams, s.id = sid →
        s.allStopped = true)
    ∧ (rc.stopRecording w).notices = ["Recording stopped!"] := by
  obtain ⟨msid, mmt, mst⟩ := mr
  simp only at h2
  subst h2
  have hred : rc.stopRecording w =
      ⟨⟨some ⟨msid, mmt, .inactive⟩, [], none⟩,
        w.stopTracks sid, ["Recording stopped!"],
        .stopped (concatBlobs rc.audioChunks "audio/mp3")⟩ := by
    unfold AudioRecorder.stopRecording
    rw [h1, h3]
  rw [hred]
  refine ⟨rfl, rfl, rfl, ?_, rfl⟩
  intro s hs hid
  simp only [MediaWorld.stopTracks, List.mem_map] at hs
  obtain ⟨s0, hs0, heq⟩ := hs
  by_cases h : s0.id = sid
  · rw [if_pos h] at heq
    subst heq
    simp [MediaStream.allStopped, List.all_map]
  · rw [if_neg h] at heq
    subst heq
    exact absurd hid h

/-- Witness for C6: a session holding stream 0 with chunks `[1,2]` and `[3]`
resolves with the single blob `[1,2,3]` tagged `audio/mp3`, clears the
buffer, and the world's stream 0 ends with its track stopped. -/
theorem stopRecording_active_w :
    (AudioRecorder.stopRecording
        ⟨some ⟨0, "audio/webm", .recording⟩,
          [⟨[1, 2], "audio/webm"⟩, ⟨[3], "audio/webm"⟩], some 0⟩
        ⟨[⟨0, [⟨0, false⟩]⟩], 1⟩).outcome =
      .stopped ⟨[1, 2, 3], "audio/mp3"⟩
    ∧ (AudioRecorder.stopRecording
        ⟨some ⟨0, "audio/webm", .recording⟩,
          [⟨[1, 2], "audio/webm"⟩, ⟨[3], "audio/webm"⟩], some 0⟩
        ⟨[⟨0, [⟨0, false⟩]⟩], 1⟩).recorder.audioChunks = []
    ∧ (AudioRecorder.stopRecording
        ⟨some ⟨0, "audio/webm", .recording⟩,
          [⟨[1, 2], "audio/webm"⟩, ⟨[3], "audio/webm"⟩], some 0⟩
        ⟨[⟨0, [⟨0, false⟩]⟩], 1⟩).world =
      MediaWorld.stopTracks ⟨[⟨0, [⟨0, false⟩]⟩], 1⟩ 0
    ∧ (AudioRecorder.stopRecording
        ⟨some ⟨0, "audio/webm", .recording⟩,
          [⟨[1, 2], "audio/webm"⟩, ⟨[3], "audio/webm"⟩], some 0⟩
        ⟨[⟨0, [⟨0, false⟩]⟩], 1⟩).notices = ["Recording stopped!"] := by
  have h := stopRecording_active
    ⟨some ⟨0, "audio/webm", .recording⟩,
      [⟨[1, 2], "audio/webm"⟩, ⟨[3], "audio/webm"⟩], some 0⟩
    ⟨[⟨0, [⟨0, false⟩]⟩], 1⟩ ⟨0, "audio/webm", .recording⟩ 0 rfl rfl rfl
  exact ⟨h.1, h.2.1, h.2.2.1, h.2.2.2.2⟩

/-- C7: the open defect the design document flags — starting capture twice
in a row without an intervening stop does leak: from a fresh plugin, two
granted `startRecording` calls leave two live device streams in the pool
(the first stream's tracks are never stopped once the wrapper overwrites
its reference), violating the at-most-one-active-session invariant. -/
theorem double_start_leaks_stream :
    (let env : Env := ⟨Except.ok (), fun _ => false, 1, 0⟩
     let r1 := AudioRecorder.startRecording env AudioRecorder.init ⟨[], 0⟩
     let r2 := AudioRecorder.startRecording env r1.recorder r1.world
     r2.world.liveStreams.length = 2 ∧ 1 < r2.world.liveStreams.length) := by
  decide

/-- C8: in the ribbon toggle's stop branch, whatever blob `stopRecording`
resolves with — a resolved Blob object is truthy in JS even at zero bytes —
is handed to `saveAudio` unconditionally under the timestamp default name;
in particular a zero-byte result is written as a zero-byte file. -/
theorem stop_click_saves_blob_unconditionally (env : Env) (ps : PluginState)
    (w : MediaWorld) (b : Blob)
    (h1 : ps.isRecording = true)
    (h2 : (ps.recorder.stopRecording w).outcome.resolvedBlob = some b) :
    (ribbonClick env ps w).plugin.vault =
      (saveAudio ps.vault b ("Recording-" ++ toString env.now ++ ".mp3")).vault
    ∧ (b.size = 0 →
        ∃ f ∈ (ribbonClick env ps w).plugin.vault.files,
          f.path = "Audio/" ++ ("Recording-" ++ toString env.now ++ ".mp3")
          ∧ f.content.length = 0) := by
  have hred : ribbonClick env ps w =
      ⟨⟨(ps.recorder.stopRecording w).recorder, false,
          (saveAudio ps.vault b
            ("Recording-" ++ toString env.now ++ ".mp3")).vault⟩,
        (ps.recorder.stopRecording w).world,
        (ps.recorder.stopRecording w).notices ++
          (saveAudio ps.vault b
            ("Recording-" ++ toString env.now ++ ".mp3")).notices⟩ := by
    unfold ribbonClick
    rw [h1]
    simp only [Bool.not_true, Bool.false_eq_true, if_false]
    rw [h2]
  have hsave := saveAudio_spec ps.vault b
    ("Recording-" ++ toString env.now ++ ".mp3")
  constructor
  · rw [hred]
  · intro hz
    refine ⟨⟨"Audio/" ++ ("Recording-" ++ toString env.now ++ ".mp3"), b.data⟩,
      ?_, rfl, ?_⟩
    · rw [hred]
      exact List.mem_of_mem_filter
        (by rw [hsave.2.1]; exact List.mem_singleton_self _)
    · exact hz

/-- Witness for C8: one click while `isRecording` is set, on a wrapper with
no session, resolves the empty blob and still writes the zero-byte
`Audio/Recording-0.mp3`. -/
theorem stop_click_saves_blob_unconditionally_w :
    (ribbonClick ⟨Except.ok (), fun _ => false, 1, 0⟩
        ⟨AudioRecorder.init, true, ⟨[], []⟩⟩ ⟨[], 0⟩).plugin.vault =
      (saveAudio ⟨[], []⟩ emptyBlob ("Recording-" ++ toString (0 : Nat) ++ ".mp3")).vault := by
  have h := stop_click_saves_blob_unconditionally
    ⟨Except.ok (), fun _ => false, 1, 0⟩
    ⟨AudioRecorder.init, true, ⟨[], []⟩⟩ ⟨[], 0⟩ emptyBlob rfl rfl
  exact h.1

/-- C9: the empty-object branch of `stopRecording` is taken exactly when the
`mediaRecorder` reference is still `null`, i.e. only on a wrapper on which
`start()` never ran; after a completed (granted) start/stop cycle the
reference is not cleared, so a second stop neither takes the empty-object
branch nor resolves — the inactive platform recorder never fires `onstop`,
leaving the promise pending. -/
theorem stop_empty_branch_only_fresh :
    (∀ (rc : AudioRecorder) (w : MediaWorld),
        (rc.stopRecording w).outcome = StopOutcome.noRecorder emptyBlob ↔
          rc.mediaRecorder = none)
    ∧ (∀ (env : Env) (rc : AudioRecorder) (w : MediaWorld),
        env.userMedia = Except.ok () →
          ((AudioRecorder.startRecording env rc w).recorder.stopRecording
              (AudioRecorder.startRecording env rc w).world).recorder.mediaRecorder.isSome
            = true
          ∧ (((AudioRecorder.startRecording env rc w).recorder.stopRecording
                (AudioRecorder.startRecording env rc w).world).recorder.stopRecording
              ((AudioRecorder.startRecording env rc w).recorder.stopRecording
                (AudioRecorder.startRecording env rc w).world).world).outcome
            = StopOutcome.pending) := by
  constructor
  · intro rc w
    cases hm : rc.mediaRecorder with
    | none => simp [AudioRecorder.stopRecording, hm]
    | some mr =>
      cases hs : mr.state <;>
        simp [AudioRecorder.stopRecording, hm, hs]
  · intro env rc w h
    have hred : AudioRecorder.startRecording env rc w =
        ⟨⟨some ⟨w.nextId, selectMimeType env.isTypeSupported, .recording⟩,
            [], some w.nextId⟩,
          ⟨w.streams ++
              [⟨w.nextId, (List.range env.newTrackCount).map fun i => ⟨i, false⟩⟩],
            w.nextId + 1⟩,
          ["Recording started..."], some w.nextId⟩ := by
      unfold AudioRecorder.startRecording
      rw [h]
      rfl
    rw [hred]
    exact ⟨rfl, rfl⟩

/-- Witness for C9: a fresh wrapper takes the empty-object branch, and after
one granted start/stop cycle a further stop is left pending. -/
theorem stop_empty_branch_only_fresh_w :
    (AudioRecorder.init.stopRecording ⟨[], 0⟩).outcome =
      StopOutcome.noRecorder emptyBlob
    ∧ (((AudioRecorder.startRecording ⟨Except.ok (), fun _ => false, 1, 0⟩
            AudioRecorder.init ⟨[], 0⟩).recorder.stopRecording
          (AudioRecorder.startRecording ⟨Except.ok (), fun _ => false, 1, 0⟩
            AudioRecorder.init ⟨[], 0⟩).world).recorder.stopRecording
        ((AudioRecorder.startRecording ⟨Except.ok (), fun _ => false, 1, 0⟩
            AudioRecorder.init ⟨[], 0⟩).recorder.stopRecording
          (AudioRecorder.startRecording ⟨Except.ok (), fun _ => false, 1, 0⟩
            AudioRecorder.init ⟨[], 0⟩).world).world).outcome
      = StopOutcome.pending := by
  constructor
  · exact (stop_empty_branch_only_fresh.1 AudioRecorder.init ⟨[], 0⟩).mpr rfl
  · exact (stop_empty_branch_only_fresh.2 ⟨Except.ok (), fun _ => false, 1, 0⟩
      AudioRecorder.init ⟨[], 0⟩ rfl).2

/-- C10: the rename dialog's submit handler passes exactly the trimmed
input plus `".mp3"` to the rename callback, with no deduplication of an
existing suffix; because `RenameModal.onOpen` pre-fills the input with
`file.name + ".mp3"`, confirming the pre-filled default requests
`<name>.mp3.mp3` (`jsTrim` embeds the host's `String.prototype.trim`). -/
theorem renameSubmit_appends_suffix (t fname : String)
    (ht : jsTrim t = t) (hne : t ≠ "")
    (hp : jsTrim (renamePrefill fname) = renamePrefill fname) :
    renameSubmit t = some (t ++ ".mp3")
    ∧ renameSubmit (renamePrefill fname) = some (fname ++ ".mp3.mp3") := by
  constructor
  · simp only [renameSubmit]
    rw [ht, if_pos hne]
  · have hne2 : renamePrefill fname ≠ "" := append_mp3_ne_empty fname
    simp only [renameSubmit]
    rw [hp, if_pos hne2]
    show some ((fname ++ ".mp3") ++ ".mp3") = some (fname ++ ".mp3.mp3")
    rw [String.append_assoc]
    rfl

/-- Witness for C10: submitting the typed name `My Recording` requests
`My Recording.mp3`, and confirming the pre-filled default for the file
named `Recording-0` requests `Recording-0.mp3.mp3`. -/
theorem renameSubmit_appends_suffix_w :
    renameSubmit "My Recording" = some ("My Recording" ++ ".mp3")
    ∧ renameSubmit (renamePrefill "Recording-0") =
      some ("Recording-0" ++ ".mp3.mp3") :=
  renameSubmit_appends_suffix "My Recording" "Recording-0"
    (by decide) (by decide) (by decide)
